import Mathlib

/-!
Shallow embedding of the documentation-generation pipeline in
`leetcode_api.py` (class `LeetCodeAPI`), together with theorems settling
the specification's claims about it.

Conventions of the embedding:
* Python strings are Lean `String`s; Python `str.split`, `str.zfill`,
  `str.replace`, `str.startswith` and `file.readlines` are re-implemented
  below with kernel-reducible structural recursion so that concrete
  instances evaluate by `rfl`/`decide`.
* Python `float` arithmetic in `__get_emoji` and `write_readme` is
  modelled as exact rational (`ℚ`) arithmetic; Python `round(x, 2)` is
  modelled as round-half-to-even onto hundredths.
* The network (`__get_problem_by_slug`), the glob over the solutions
  directory, and the contents of solution files are inputs of the
  embedding, passed as functions (`fetch`, `globFn`, `disk`).
* File writes are modelled as updates to a map `FS := String → Option
  String`; opening a file with mode `"w"` and writing content `c` is a
  full overwrite, `fsWrite`.
-/

/-- Count of characters needed to left-pad `s` with zeros; helper for
`pyZfill`. -/
def pad0 (s : String) (w : Nat) : String :=
  String.mk (List.replicate (w - s.length) '0') ++ s

/-- Embedding of Python `str.zfill(w)`: left-pad with `'0'` to width `w`,
inserting the zeros after a leading minus sign. -/
def pyZfill (s : String) (w : Nat) : String :=
  match s.data with
  | '-' :: rest => "-" ++ pad0 (String.mk rest) (w - 1)
  | _ => pad0 s w

/-- Embedding of Python `str(i)` for an integer. -/
def pyIntStr : Int → String
  | Int.ofNat n => Nat.repr n
  | Int.negSucc n => "-" ++ Nat.repr (n + 1)

/-- Helper for `pySplit`: if `sep` is a prefix of the second list, return
the remainder after dropping it. -/
def dropPrefixQ : List Char → List Char → Option (List Char)
  | [], rest => some rest
  | _ :: _, [] => none
  | p :: ps, c :: cs => if c = p then dropPrefixQ ps cs else none

/-- Fueled worker for `pySplit`; scans left to right, splitting at each
non-overlapping occurrence of `sep`. -/
def splitAux (sep : List Char) : Nat → List Char → List Char → List (List Char)
  | _, [], acc => [acc.reverse]
  | 0, s, acc => [acc.reverse ++ s]
  | fuel + 1, c :: cs, acc =>
    match dropPrefixQ sep (c :: cs) with
    | some rest => acc.reverse :: splitAux sep fuel rest []
    | none => splitAux sep fuel cs (c :: acc)

/-- Embedding of Python `s.split(sep)` for a nonempty separator: split on
every non-overlapping occurrence, keeping empty pieces (`"".split(sep) ==
[""]`). -/
def pySplit (s sep : String) : List String :=
  match sep.data with
  | [] => [s]
  | l => (splitAux l s.data.length s.data []).map String.mk

/-- Embedding of Python `s.replace(old, new)` for a nonempty `old`, via
the identity `s.replace(old, new) == new.join(s.split(old))`. -/
def pyReplace (s old new : String) : String :=
  String.intercalate new (pySplit s old)

/-- Embedding of Python `s.startswith(p)`. -/
def pyStartswith (s p : String) : Bool :=
  List.isPrefixOf p.data s.data

/-- Embedding of Python `file.readlines()` on content `s`: pieces ending
in a newline, plus a final piece without one when the content does not
end in a newline. -/
def pyReadlines (s : String) : List String :=
  let parts := pySplit s "\n"
  (parts.dropLast.map (fun l => l ++ "\n")) ++
    (match parts.getLast? with
     | some "" => []
     | some l => [l]
     | none => [])

/-- Truncating three-way zip, mirroring Python `zip(a, b, c)`. -/
def zip3 {α β γ : Type} : List α → List β → List γ → List (α × β × γ)
  | a :: as, b :: bs, c :: cs => (a, b, c) :: zip3 as bs cs
  | _, _, _ => []

/-- Stat sub-record of one entry of `res["stat_status_pairs"]`. -/
structure Stat where
  frontend_question_id : Int
  question__title_slug : String
  question__title : String

/-- Difficulty sub-record of a catalog entry: `problem["difficulty"]["level"]`
(1 = easy, 2 = medium, 3 = hard). -/
structure DifficultyInfo where
  level : Int

/-- One catalog entry (one element of `stat_status_pairs`). -/
structure Problem where
  stat : Stat
  difficulty : DifficultyInfo

/-- Metadata returned by `__get_problem_by_slug` for one slug. -/
structure Question where
  title : String
  difficulty : String
  likes : Nat
  dislikes : Nat
  topicTags : List String

/-- One Ledger Row of the spreadsheet (`sheet.get_all_records()` entry),
with its `Time`, `Space` and `Ways` fields. -/
structure Record where
  Time : String
  Space : String
  Ways : String

/-- Embedding of `LeetCodeAPI.__get_difficulty_color`: `"Easy"` and
`"Medium"` map to fixed constants and every other string falls through to
the red constant. -/
def get_difficulty_color (difficulty : String) : String :=
  if difficulty = "Easy" then "00a690"
  else if difficulty = "Medium" then "ffaf00"
  else "ff284b"

/-- Badge string built for one topic tag found in the color table, as in
`__get_tag_strings`. -/
def tag_badge (problem_tag color : String) : String :=
  "![](https://img.shields.io/badge/-" ++ pyReplace problem_tag "-" "--" ++
    "-" ++ color ++ ".svg?style=flat-square)"

/-- Embedding of `LeetCodeAPI.__get_tag_strings`. The `colors` table lives
in `colors.py`, which is not part of the sources here; it is passed as an
association list (Python dict iterated by key lookup). Tags absent from
the table are skipped by the loop. -/
def get_tag_strings (colors : List (String × String)) (problem_tags : List String) : List String :=
  problem_tags.foldl
    (fun tag_strings problem_tag =>
      match List.lookup problem_tag colors with
      | some color => tag_strings ++ [tag_badge problem_tag color]
      | none => tag_strings)
    []

/-- Embedding of `LeetCodeAPI.__get_emoji`; Python float division is
modelled as exact division in `ℚ`. -/
def get_emoji (likes dislikes : Nat) : String :=
  let votes : Nat := likes + dislikes
  if votes = 0 then ""
  else
    let likes_percentage : ℚ := (likes : ℚ) / (votes : ℚ)
    if likes_percentage > 0.8 then ":thumbsup:"
    else if likes_percentage < 0.5 then ":thumbsdown:"
    else ""

/-- Embedding of `LeetCodeAPI.__get_display_title`. -/
def get_display_title (problem_no : Int) (title link emoji : String) : String :=
  let display_title : String := "# [" ++ pyIntStr problem_no ++ ". " ++ title ++ "](" ++ link ++ ")"
  if emoji ≠ "" then display_title ++ " " ++ emoji else display_title

/-- The three (extension, language, tab label) rows iterated by
`__write_code`. -/
def langConfigs : List (String × String × String) :=
  [("cpp", "cpp", "C++"), ("java", "java", "Java"), ("py", "python", "Python")]

/-- Embedding of `LeetCodeAPI.__write_code` as the string it writes to the
page: for each supported language whose snippet file exists on `disk`, a
tabbed code block with every line of the file indented by four spaces. -/
def write_code (disk : String → Option String) (filled_num problem_path : String)
    (approach_index : Nat) : String :=
  String.join (langConfigs.map (fun cfg =>
    let suffix : String := if approach_index = 1 then "" else "-" ++ Nat.repr approach_index
    let code_file_dir : String := problem_path ++ "/" ++ filled_num ++ suffix ++ "." ++ cfg.1
    match disk code_file_dir with
    | none => ""
    | some code =>
      "=== \"" ++ cfg.2.2 ++ "\"\n\n" ++ "    ```" ++ cfg.2.1 ++ "\n" ++
        String.join ((pyReadlines code).map (fun line => "    " ++ line)) ++
        "\n" ++ "    ```" ++ "\n\n"))

/-- One `## Approach k` subsection of a page body, as written by the
multi-approach branch of `write_problems`. -/
def approach_section (disk : String → Option String) (filled_num problem_path : String)
    (approach_index : Nat) (way time_complexity space_complexity : String) : String :=
  "## Approach " ++ Nat.repr approach_index ++ ": " ++ way ++ "\n\n" ++
    "- [x] **Time:** " ++ time_complexity ++ "\n" ++
    "- [x] **Space:** " ++ space_complexity ++ "\n" ++ "\n" ++
    write_code disk filled_num problem_path approach_index

/-- The ordered list of approach subsections produced by the loop `for
way, time_complexity, space_complexity in zip(...)` with `approach_index`
counting from 1. -/
def approach_sections (disk : String → Option String) (filled_num problem_path : String)
    (ways time_complexities space_complexities : List String) : List String :=
  (zip3 ways time_complexities space_complexities).enum.map
    (fun e => approach_section disk filled_num problem_path (e.1 + 1) e.2.1 e.2.2.1 e.2.2.2)

/-- Body of a page (everything `write_problems` writes after the header):
empty when the glob over the solutions directory found no match
(`continue`), otherwise the multi-approach subsections or the single
unlabeled time/space block followed by the first approach's snippets. -/
def page_body (disk : String → Option String) (filled_num : String) (rec : Record)
    (globMatches : List String) : String :=
  let time_complexities := pySplit rec.Time "; "
  let space_complexities := pySplit rec.Space "; "
  let ways := pySplit rec.Ways "; "
  match globMatches with
  | [] => ""
  | m :: _ =>
    if ways.length > 1 then
      String.join (approach_sections disk filled_num m ways time_complexities space_complexities)
    else
      (if time_complexities = [] then "" else
        "- [x] **Time:** " ++ time_complexities.headD "" ++ "\n") ++
      (if space_complexities = [] then "" else
        "- [x] **Space:** " ++ space_complexities.headD "" ++ "\n") ++
      "\n" ++ write_code disk filled_num m 1

/-- Zero-padded number used by `write_problems` to name files and snippet
prefixes: `i = frontend_question_id - 1` and `filled_num = str(i + 1).zfill(4)`. -/
def filled_num_of (fid : Int) : String :=
  pyZfill (pyIntStr (fid - 1 + 1)) 4

/-- File name of the page `write_problems` writes for a catalog entry. -/
def page_file_name (fid : Int) : String :=
  filled_num_of fid ++ ".md"

/-- Full path of the page, under `self.problems_path`. -/
def page_path (fid : Int) : String :=
  "mkdocs/docs/problems/" ++ page_file_name fid

/-- File name the `write_mkdocs` navigation entry links to:
`str(frontend_question_id).zfill(4) + ".md"`. -/
def nav_file_name (fid : Int) : String :=
  pyZfill (pyIntStr fid) 4 ++ ".md"

/-- Modelled from the spec: the page file name claim C1 predicts for the
Page Renderer, keyed by the entry's positional index in the catalog
(1-based, zero-padded to 4 digits). The source, by contrast, derives the
name from the frontend id. -/
def spec_positional_file_name (position : Nat) : String :=
  pyZfill (Nat.repr (position + 1)) 4 ++ ".md"

/-- Problem link used in the title line: built from the entry's original
slug (`problem["stat"]["question__title_slug"]`). -/
def link_of (slug : String) : String :=
  "https://leetcode.com/problems/" ++ slug

/-- Metadata actually used for a slug: `write_problems` first fetches the
slug, then, for the one renamed slug `"bulb-switcher-iv"`, re-fetches
under `"minimum-suffix-flips"` and discards the first answer. -/
def fetch_question (fetch : String → Question) (slug : String) : Question :=
  if slug = "bulb-switcher-iv" then fetch "minimum-suffix-flips" else fetch slug

/-- Difficulty badge line written by `write_problems`. -/
def difficulty_badge (difficulty : String) : String :=
  "![](https://img.shields.io/badge/-" ++ difficulty ++ "-" ++
    get_difficulty_color difficulty ++ ".svg?style=for-the-badge)"

/-- Header of a page: title line, difficulty badge, tag badges — the part
`write_problems` writes before checking for solution snippets. -/
def page_header (colors : List (String × String)) (q : Question) (fid : Int)
    (slug : String) : String :=
  get_display_title (fid - 1 + 1) q.title (link_of slug) (get_emoji q.likes q.dislikes) ++
    "\n\n" ++
    difficulty_badge q.difficulty ++ "\n\n" ++
    String.intercalate " " (get_tag_strings colors q.topicTags) ++ "\n\n"

/-- External inputs of one `write_problems` run: the color table, the
Ledger Rows, the metadata fetcher, the glob over the solutions directory,
and the snippet-file contents. -/
structure PageInputs where
  colors : List (String × String)
  records : List Record
  fetch : String → Question
  globFn : String → List String
  disk : String → Option String

/-- Ledger Row used for a catalog entry: `self.records[i]` with
`i = frontend_question_id - 1` (out-of-range access raises in Python; the
embedding returns an empty row there). -/
def record_of (inp : PageInputs) (fid : Int) : Record :=
  inp.records.getD (fid - 1).toNat ⟨"", "", ""⟩

/-- Glob pattern `write_problems` uses to look for solution snippets of a
problem: `f"{self.sols_path}{filled_num}*"`. -/
def sols_glob_pattern (fid : Int) : String :=
  "solutions/" ++ filled_num_of fid ++ "*"

/-- Entire content `write_problems` writes for one catalog entry. -/
def page_content (inp : PageInputs) (p : Problem) : String :=
  let fid := p.stat.frontend_question_id
  let q := fetch_question inp.fetch p.stat.question__title_slug
  page_header inp.colors q fid p.stat.question__title_slug ++
    page_body inp.disk (filled_num_of fid) (record_of inp fid) (inp.globFn (sols_glob_pattern fid))

/-- File-system model: a map from path to file content. -/
def FS : Type := String → Option String

/-- Full overwrite of one file, the effect of `open(name, "w")` plus the
writes. -/
def fsWrite (fs : FS) (name content : String) : FS :=
  fun m => if m = name then some content else fs m

/-- Embedding of `LeetCodeAPI.write_problems` as a file-system transformer:
one full overwrite per catalog entry, in catalog order. -/
def write_problems (inp : PageInputs) (problems : List Problem) (fs : FS) : FS :=
  problems.foldl
    (fun acc p => fsWrite acc (page_path p.stat.frontend_question_id) (page_content inp p))
    fs

/-- Content the run leaves at a path: the page of the last catalog entry
whose page path equals it, if any. -/
def written_content (inp : PageInputs) : List Problem → String → Option String
  | [], _ => none
  | p :: ps, name =>
    match written_content inp ps name with
    | some c => some c
    | none =>
      if name = page_path p.stat.frontend_question_id then some (page_content inp p) else none

/-- One navigation line appended by `write_mkdocs` for a catalog entry. -/
def mkdocs_entry (p : Problem) : String :=
  "      - \"" ++ pyIntStr p.stat.frontend_question_id ++ ". " ++
    p.stat.question__title ++ "\": problems/" ++
    nav_file_name p.stat.frontend_question_id ++ "\n"

/-- Block appended to `mkdocs.yml` by `write_mkdocs`. -/
def write_mkdocs (problems : List Problem) : String :=
  "  - Problems:\n" ++ String.join (problems.map mkdocs_entry)

/-- Embedding of Python `round` at the half-way point and below/above:
round half to even, applied to hundredths by `pyRound2`. -/
def pyRoundHalfEven (x : ℚ) : ℤ :=
  if x - ⌊x⌋ > 1 / 2 then ⌊x⌋ + 1
  else if x - ⌊x⌋ < 1 / 2 then ⌊x⌋
  else if ⌊x⌋ % 2 = 0 then ⌊x⌋ else ⌊x⌋ + 1

/-- Embedding of Python `round(q, 2)`: round to the nearest hundredth,
ties to even. -/
def pyRound2 (q : ℚ) : ℚ :=
  (pyRoundHalfEven (q * 100) : ℚ) / 100

/-- Decimal rendering of a non-negative rational that is an exact multiple
of 1/100, as Python `str` prints the corresponding float: an integer part,
a dot, and the fractional digits with the trailing zero dropped but at
least one digit kept. -/
def decimal2Str (q : ℚ) : String :=
  let n : Nat := (⌊q * 100⌋).toNat
  Nat.repr (n / 100) ++ "." ++
    (if n % 100 % 10 = 0 then Nat.repr (n % 100 / 10)
     else if n % 100 < 10 then "0" ++ Nat.repr (n % 100)
     else Nat.repr (n % 100))

/-- Badge prefix constant of `leetcode_api.py`. -/
def BADGE_PREFIX : String := "<img src=\"https://img.shields.io/badge/"

/-- Badge suffix constant of `leetcode_api.py`. -/
def BADGE_SUFFIX : String := ".svg?style=flat-square\" />\n"

/-- Solved badge written by `write_readme`, with the percentage
`round((num_solved / num_total) * 100, 2)` rendered inside it. -/
def solved_badge (num_solved num_total : Nat) : String :=
  BADGE_PREFIX ++ "Solved-" ++ Nat.repr num_solved ++ "/" ++ Nat.repr num_total ++
    "%20=%20" ++
    decimal2Str (pyRound2 (((num_solved : ℚ) / (num_total : ℚ)) * 100)) ++
    "%25-blue" ++ BADGE_SUFFIX

/-- Marker prefix `write_readme` scans for in `README.md`. -/
def solvedMarker : String := "<img src=\"https://img.shields.io/badge/Solved"

/-- Index of the first line starting with the marker prefix, if any. -/
def find_marker : List String → Option Nat
  | [] => none
  | l :: ls =>
    if pyStartswith l solvedMarker then some 0 else (find_marker ls).map (· + 1)

/-- Embedding of Python list item assignment `ls[n] = v`: `none` models
the `IndexError` raised when `n` is out of range. -/
def pySet : List String → Nat → String → Option (List String)
  | [], _, _ => none
  | _ :: xs, 0, v => some (v :: xs)
  | x :: xs, n + 1, v => (pySet xs n v).map (x :: ·)

/-- Line index `write_readme` writes at: the scan's `break` index when the
marker is found, else the loop variable's final value `len - 1` (`none`
models the `NameError` on an empty file). -/
def marker_index (ls : List String) : Option Nat :=
  match find_marker ls with
  | some i => some i
  | none => if ls.length = 0 then none else some (ls.length - 1)

/-- Line updates of `write_readme`: the four badge lines are assigned at
offsets `i`, `i + 2`, `i + 3`, `i + 4` and everything else is written back
as read. -/
def readme_update (solved easy medium hard : String) (ls : List String) :
    Option (List String) :=
  match marker_index ls with
  | none => none
  | some i =>
    (pySet ls i solved).bind (fun l1 =>
    (pySet l1 (i + 2) easy).bind (fun l2 =>
    (pySet l2 (i + 3) medium).bind (fun l3 =>
    pySet l3 (i + 4) hard)))

/-- State the `LeetCodeAPI` constructor builds: the bulk response's
`num_total`, the sorted `stat_status_pairs`, and the spreadsheet rows. -/
structure APIState where
  num_total : Nat
  problems : List Problem
  records : List Record

/-- Smoke-test truncation in `LeetCodeAPI.__init__`: with an extra CLI
argument, `problems` and `records` are cut to their first two entries;
`res` (hence `num_total`) is untouched. -/
def apply_argv (argv : List String) (st : APIState) : APIState :=
  if argv.length > 1 then
    { st with problems := st.problems.take 2, records := st.records.take 2 }
  else st

/-- Solved test of `write_readme` for one catalog entry: the glob on
`str(frontend_question_id).zfill(4)` has at least one match. -/
def is_solved (globFn : String → List String) (p : Problem) : Bool :=
  !(globFn ("solutions/" ++ pyZfill (pyIntStr p.stat.frontend_question_id) 4 ++ "*")).isEmpty

/-- Total solved count of `write_readme`: `sum(ac_count.values())`. -/
def num_solved (globFn : String → List String) (problems : List Problem) : Nat :=
  (problems.filter (fun p => is_solved globFn p)).length

/-- Solved percentage of `write_readme`:
`round((num_solved / num_total) * 100, 2)`, with `num_total` taken from
the bulk catalog response and `num_solved` from the processed entries. -/
def solved_percentage (globFn : String → List String) (st : APIState) : ℚ :=
  pyRound2 (((num_solved globFn st.problems : ℚ) / (st.num_total : ℚ)) * 100)

/-- Concrete metadata record used by witnesses. -/
def sampleQuestion : Question :=
  ⟨"Two Sum", "Easy", 0, 0, []⟩

/-- Concrete inputs with no snippet on disk, used by witnesses. -/
def sampleInputs : PageInputs :=
  ⟨[], [⟨"O(n)", "O(1)", "Brute force"⟩], fun _ => sampleQuestion, fun _ => [], fun _ => none⟩

/-- Concrete catalog entry used by witnesses. -/
def sampleProblem : Problem :=
  ⟨⟨1, "two-sum", "Two Sum"⟩, ⟨1⟩⟩

/-- Concrete Ledger Row with three approaches, used by witnesses. -/
def sampleRecord : Record :=
  ⟨"O(n); O(n log n); O(n^2)", "O(1); O(n); O(n)", "Brute force; Sorting; Hash table"⟩

/-- Concrete state with four problems, one of them solved, used by
witnesses. -/
def sampleState : APIState :=
  ⟨4,
   [⟨⟨1, "a", "A"⟩, ⟨1⟩⟩, ⟨⟨2, "b", "B"⟩, ⟨2⟩⟩, ⟨⟨3, "c", "C"⟩, ⟨3⟩⟩, ⟨⟨4, "d", "D"⟩, ⟨3⟩⟩],
   [⟨"", "", ""⟩, ⟨"", "", ""⟩, ⟨"", "", ""⟩, ⟨"", "", ""⟩]⟩

/-- Concrete glob matching only problem 0001, used by witnesses. -/
def sampleGlob : String → List String :=
  fun pat => if pat = "solutions/0001*" then ["solutions/0001. A"] else []

/-- Case lemma for `get_emoji`: zero total votes yield no indicator. -/
theorem get_emoji_zero (likes dislikes : Nat) (h : likes + dislikes = 0) :
    get_emoji likes dislikes = "" := by
  simp [get_emoji, h]

/-- Case lemma for `get_emoji`: a like ratio above 0.8 yields the positive
token. -/
theorem get_emoji_pos (likes dislikes : Nat)
    (h : (likes : ℚ) / ((likes + dislikes : Nat) : ℚ) > 0.8) :
    get_emoji likes dislikes = ":thumbsup:" := by
  have h0 : ¬(likes + dislikes = 0) := by
    intro hz
    rw [hz] at h
    norm_num at h
  simp only [get_emoji]
  rw [if_neg h0, if_pos h]

/-- Case lemma for `get_emoji`: a like ratio below 0.5 yields the negative
token. -/
theorem get_emoji_neg (likes dislikes : Nat) (h0 : likes + dislikes ≠ 0)
    (h : (likes : ℚ) / ((likes + dislikes : Nat) : ℚ) < 0.5) :
    get_emoji likes dislikes = ":thumbsdown:" := by
  have hng : ¬((likes : ℚ) / ((likes + dislikes : Nat) : ℚ) > 0.8) := by
    intro hg
    have : (0.5 : ℚ) < 0.8 := by norm_num
    linarith
  simp only [get_emoji]
  rw [if_neg h0, if_neg hng, if_pos h]

/-- Case lemma for `get_emoji`: a ratio in the middle band yields no
indicator. -/
theorem get_emoji_none (likes dislikes : Nat) (h0 : likes + dislikes ≠ 0)
    (hg : ¬((likes : ℚ) / ((likes + dislikes : Nat) : ℚ) > 0.8))
    (hl : ¬((likes : ℚ) / ((likes + dislikes : Nat) : ℚ) < 0.5)) :
    get_emoji likes dislikes = "" := by
  simp only [get_emoji]
  rw [if_neg h0, if_neg hg, if_neg hl]

/-- Accumulator form of the `__get_tag_strings` loop: the loop extends its
accumulator by one badge per tag found in the table, in input order. -/
theorem get_tag_strings_aux (colors : List (String × String)) :
    ∀ (tags : List String) (acc : List String),
      tags.foldl
        (fun tag_strings problem_tag =>
          match List.lookup problem_tag colors with
          | some color => tag_strings ++ [tag_badge problem_tag color]
          | none => tag_strings) acc =
      acc ++ (tags.filter (fun t => (List.lookup t colors).isSome)).map
        (fun t => tag_badge t ((List.lookup t colors).getD "")) := by
  intro tags
  induction tags with
  | nil => intro acc; simp
  | cons t ts ih =>
    intro acc
    simp only [List.foldl_cons, List.filter_cons]
    cases hl : List.lookup t colors with
    | none => simp [hl, ih]
    | some c => simp [hl, ih]

/-- Length is preserved by a successful Python list assignment. -/
theorem pySet_length :
    ∀ (ls : List String) (n : Nat) (v : String) (out : List String),
      pySet ls n v = some out → out.length = ls.length := by
  intro ls
  induction ls with
  | nil => intro n v out h; cases h
  | cons x xs ih =>
    intro n v out h
    cases n with
    | zero =>
      simp only [pySet, Option.some.injEq] at h
      subst h
      simp
    | succ n =>
      simp only [pySet] at h
      cases hro : pySet xs n v with
      | none => rw [hro] at h; cases h
      | some o =>
        rw [hro] at h
        simp only [Option.map_some', Option.some.injEq] at h
        subst h
        simp [ih n v o hro]

/-- Entries away from the assigned index are unchanged by a successful
Python list assignment. -/
theorem pySet_getD_ne :
    ∀ (ls : List String) (n : Nat) (v : String) (out : List String) (j : Nat),
      pySet ls n v = some out → j ≠ n → out.getD j "" = ls.getD j "" := by
  intro ls
  induction ls with
  | nil => intro n v out j h; cases h
  | cons x xs ih =>
    intro n v out j h hj
    cases n with
    | zero =>
      simp only [pySet, Option.some.injEq] at h
      subst h
      cases j with
      | zero => exact absurd rfl hj
      | succ j => simp
    | succ n =>
      simp only [pySet] at h
      cases hro : pySet xs n v with
      | none => rw [hro] at h; cases h
      | some o =>
        rw [hro] at h
        simp only [Option.map_some', Option.some.injEq] at h
        subst h
        cases j with
        | zero => simp
        | succ j =>
          simp only [List.getD_cons_succ]
          exact ih n v o j hro (fun he => hj (by rw [he]))

/-- Lookup form of `write_problems`: the resulting file system holds the
last page rendered at a path, and is untouched elsewhere. -/
theorem write_problems_lookup (inp : PageInputs) (ps : List Problem) (fs : FS) (name : String) :
    write_problems inp ps fs name =
      match written_content inp ps name with
      | some c => some c
      | none => fs name := by
  induction ps generalizing fs with
  | nil => rfl
  | cons p ps ih =>
    simp only [write_problems, List.foldl_cons] at *
    rw [ih]
    cases hwc : written_content inp ps name with
    | some c => simp [written_content, hwc]
    | none =>
      simp only [written_content, hwc, fsWrite]
      split <;> rfl

/-- C1 (counterexample). For a catalog entry with frontend id 5 sitting at
positional index 0 of a one-entry catalog, `write_problems` names the page
"0005.md" — the frontend id key, not the claim's positional-index key
"0001.md" — and this is exactly the file the `write_mkdocs` navigation
entry links to, even though the catalog is neither dense nor starting at
1. -/
theorem page_naming_by_position_counterexample :
    page_file_name 5 = "0005.md" ∧
    nav_file_name 5 = "0005.md" ∧
    spec_positional_file_name 0 = "0001.md" ∧
    page_file_name 5 ≠ spec_positional_file_name 0 ∧
    page_file_name 5 = nav_file_name 5 :=
  ⟨by decide, by decide, by decide, by decide, by decide⟩

/-- C1 (amended). For every catalog entry, the Page Renderer's file name
`str(i + 1).zfill(4) + ".md"` with `i = frontend_question_id - 1` is the
frontend id zero-padded to 4 digits, identical to the key the Navigation
Appender links to; the two file keys coincide for every entry,
unconditionally. -/
theorem page_and_nav_keys_always_agree (fid : Int) :
    page_file_name fid = nav_file_name fid := by
  unfold page_file_name nav_file_name filled_num_of
  rw [sub_add_cancel]

/-- C2. For all non-negative vote counts, `__get_emoji` returns the empty
string on zero total votes, the positive token above ratio 0.8, the
negative token below ratio 0.5, and the empty string otherwise; in
particular 9/1 gives the positive token, 1/9 the negative token, 5/5 and
0/0 no token. -/
theorem emoji_thresholds :
    (∀ likes dislikes : Nat,
      (likes + dislikes = 0 → get_emoji likes dislikes = "") ∧
      ((likes : ℚ) / ((likes + dislikes : Nat) : ℚ) > 0.8 →
        get_emoji likes dislikes = ":thumbsup:") ∧
      (likes + dislikes ≠ 0 → (likes : ℚ) / ((likes + dislikes : Nat) : ℚ) < 0.5 →
        get_emoji likes dislikes = ":thumbsdown:") ∧
      (likes + dislikes ≠ 0 → ¬((likes : ℚ) / ((likes + dislikes : Nat) : ℚ) > 0.8) →
        ¬((likes : ℚ) / ((likes + dislikes : Nat) : ℚ) < 0.5) →
        get_emoji likes dislikes = "")) ∧
    get_emoji 9 1 = ":thumbsup:" ∧ get_emoji 1 9 = ":thumbsdown:" ∧
    get_emoji 5 5 = "" ∧ get_emoji 0 0 = "" := by
  refine ⟨fun likes dislikes =>
    ⟨get_emoji_zero likes dislikes, get_emoji_pos likes dislikes,
     get_emoji_neg likes dislikes, get_emoji_none likes dislikes⟩,
    get_emoji_pos 9 1 (by norm_num),
    get_emoji_neg 1 9 (by norm_num) (by norm_num),
    get_emoji_none 5 5 (by norm_num) (by norm_num) (by norm_num),
    get_emoji_zero 0 0 rfl⟩

/-- C2 (witness). The threshold theorem applied at the concrete vote
splits 9/1, 1/9 and 0/0. -/
theorem emoji_thresholds_witness :
    get_emoji 9 1 = ":thumbsup:" ∧ get_emoji 1 9 = ":thumbsdown:" ∧ get_emoji 0 0 = "" :=
  ⟨(emoji_thresholds.1 9 1).2.1 (by norm_num),
   (emoji_thresholds.1 1 9).2.2.1 (by norm_num) (by norm_num),
   (emoji_thresholds.1 0 0).1 rfl⟩

/-- C3. A Ledger Row whose `Ways`, `Time` and `Space` fields each split
into three matching entries makes the body of a solved problem's page
exactly the three approach subsections, one per (way, time, space)
triple, in input order. -/
theorem three_approach_sections (disk : String → Option String) (fn m : String)
    (ms : List String) (rec : Record) (w1 w2 w3 t1 t2 t3 s1 s2 s3 : String)
    (hw : pySplit rec.Ways "; " = [w1, w2, w3])
    (ht : pySplit rec.Time "; " = [t1, t2, t3])
    (hs : pySplit rec.Space "; " = [s1, s2, s3]) :
    approach_sections disk fn m [w1, w2, w3] [t1, t2, t3] [s1, s2, s3] =
      [approach_section disk fn m 1 w1 t1 s1,
       approach_section disk fn m 2 w2 t2 s2,
       approach_section disk fn m 3 w3 t3 s3] ∧
    page_body disk fn rec (m :: ms) =
      String.join
        [approach_section disk fn m 1 w1 t1 s1,
         approach_section disk fn m 2 w2 t2 s2,
         approach_section disk fn m 3 w3 t3 s3] := by
  refine ⟨rfl, ?_⟩
  simp only [page_body, hw, ht, hs]
  norm_num
  rfl

/-- C3 (witness). The three-approach theorem applied to the concrete
Ledger Row `sampleRecord`. -/
theorem three_approach_sections_witness :
    approach_sections (fun _ => none) "0001" "solutions/0001. A"
        ["Brute force", "Sorting", "Hash table"]
        ["O(n)", "O(n log n)", "O(n^2)"] ["O(1)", "O(n)", "O(n)"] =
      [approach_section (fun _ => none) "0001" "solutions/0001. A" 1 "Brute force" "O(n)" "O(1)",
       approach_section (fun _ => none) "0001" "solutions/0001. A" 2 "Sorting" "O(n log n)" "O(n)",
       approach_section (fun _ => none) "0001" "solutions/0001. A" 3 "Hash table" "O(n^2)" "O(n)"] ∧
    page_body (fun _ => none) "0001" sampleRecord ["solutions/0001. A"] =
      String.join
        [approach_section (fun _ => none) "0001" "solutions/0001. A" 1 "Brute force" "O(n)" "O(1)",
         approach_section (fun _ => none) "0001" "solutions/0001. A" 2 "Sorting" "O(n log n)" "O(n)",
         approach_section (fun _ => none) "0001" "solutions/0001. A" 3 "Hash table" "O(n^2)" "O(n)"] :=
  three_approach_sections (fun _ => none) "0001" "solutions/0001. A" [] sampleRecord
    "Brute force" "Sorting" "Hash table" "O(n)" "O(n log n)" "O(n^2)" "O(1)" "O(n)" "O(n)"
    rfl rfl rfl

/-- C4. A catalog entry whose solutions glob finds no snippet gets a page
holding exactly the header — title line, difficulty badge, tag badges —
and no body; the renderer is total, so no error is raised. -/
theorem unsolved_page_header_only (inp : PageInputs) (p : Problem)
    (h : inp.globFn (sols_glob_pattern p.stat.frontend_question_id) = []) :
    page_content inp p =
      page_header inp.colors (fetch_question inp.fetch p.stat.question__title_slug)
        p.stat.frontend_question_id p.stat.question__title_slug := by
  simp only [page_content, h, page_body]
  exact String.append_empty _

/-- C4 (witness). The header-only theorem applied to concrete inputs with
an empty glob. -/
theorem unsolved_page_header_only_witness :
    page_content sampleInputs sampleProblem =
      page_header sampleInputs.colors
        (fetch_question sampleInputs.fetch sampleProblem.stat.question__title_slug)
        sampleProblem.stat.frontend_question_id sampleProblem.stat.question__title_slug :=
  unsolved_page_header_only sampleInputs sampleProblem rfl

/-- C5 (counterexample). The difficulty value "Unknown", outside the
{Easy, Medium, Hard} enum, still receives the fixed red constant — the
same color Hard maps to — so values outside the enum do reach one of the
three mappings. -/
theorem difficulty_color_counterexample :
    get_difficulty_color "Unknown" = "ff284b" ∧
    get_difficulty_color "Hard" = "ff284b" ∧
    ("Unknown" : String) ≠ "Easy" ∧ ("Unknown" : String) ≠ "Medium" ∧
    ("Unknown" : String) ≠ "Hard" :=
  ⟨by decide, by decide, by decide, by decide, by decide⟩

/-- C5 (amended). Easy, Medium and Hard map to the three fixed hex
constants, and every difficulty value other than Easy and Medium —
including values outside the enum — falls through to the red constant:
the function is a total fallback, not a closed enum. -/
theorem difficulty_color_total_fallback (d : String)
    (h1 : d ≠ "Easy") (h2 : d ≠ "Medium") :
    get_difficulty_color "Easy" = "00a690" ∧
    get_difficulty_color "Medium" = "ffaf00" ∧
    get_difficulty_color "Hard" = "ff284b" ∧
    get_difficulty_color d = "ff284b" := by
  refine ⟨by decide, by decide, by decide, ?_⟩
  unfold get_difficulty_color
  rw [if_neg h1, if_neg h2]

/-- C5 (witness). The fallback theorem applied at the difficulty value
"Garbage". -/
theorem difficulty_color_total_fallback_witness :
    get_difficulty_color "Easy" = "00a690" ∧
    get_difficulty_color "Medium" = "ffaf00" ∧
    get_difficulty_color "Hard" = "ff284b" ∧
    get_difficulty_color "Garbage" = "ff284b" :=
  difficulty_color_total_fallback "Garbage" (by decide) (by decide)

/-- C6. For one solved problem out of four,
`round((num_solved / num_total) * 100, 2)` is exactly 25, rendered as
"25.0" in the solved badge. -/
theorem summary_percentage_renders_25_0 :
    pyRound2 (((1 : ℚ) / (4 : ℚ)) * 100) = 25 ∧
    decimal2Str (pyRound2 (((1 : ℚ) / (4 : ℚ)) * 100)) = "25.0" ∧
    solved_badge 1 4 =
      "<img src=\"https://img.shields.io/badge/Solved-1/4%20=%2025.0%25-blue.svg?style=flat-square\" />\n" := by
  have h1 : ((1 : ℚ) / (4 : ℚ)) * 100 = 25 := by norm_num
  have hx : ((25 : ℚ) * 100) = ((2500 : ℤ) : ℚ) := by norm_num
  have hfloor : ⌊(25 : ℚ) * 100⌋ = 2500 := by rw [hx, Int.floor_intCast]
  have hround : pyRoundHalfEven ((25 : ℚ) * 100) = 2500 := by
    unfold pyRoundHalfEven
    rw [hfloor]
    rw [if_neg (by norm_num), if_pos (by norm_num)]
  have h2 : pyRound2 25 = 25 := by
    unfold pyRound2
    rw [hround]
    norm_num
  have h3 : decimal2Str 25 = "25.0" := by
    unfold decimal2Str
    rw [hfloor]
    decide
  have hcast : (((1 : Nat) : ℚ) / ((4 : Nat) : ℚ)) * 100 = ((1 : ℚ) / (4 : ℚ)) * 100 := by
    norm_num
  refine ⟨by rw [h1]; exact h2, by rw [h1, h2]; exact h3, ?_⟩
  unfold solved_badge
  rw [hcast, h1, h2, h3]
  decide

/-- C7. Pages are pure functions of the run's inputs, written by full
overwrite: running `write_problems` on its own output changes nothing,
and a path a page was rendered at holds that page regardless of the prior
file-system state. -/
theorem page_renderer_idempotent (inp : PageInputs) (ps : List Problem) (fs fsB : FS) :
    write_problems inp ps (write_problems inp ps fs) = write_problems inp ps fs ∧
    (∀ name c, written_content inp ps name = some c →
      write_problems inp ps fs name = some c ∧ write_problems inp ps fsB name = some c) := by
  constructor
  · funext name
    rw [write_problems_lookup, write_problems_lookup]
    cases hwc : written_content inp ps name <;> simp
  · intro name c hc
    rw [write_problems_lookup, write_problems_lookup, hc]
    exact ⟨rfl, rfl⟩

/-- C7 (witness). The overwrite theorem applied to a one-entry catalog
over two different prior file systems: both runs leave the same rendered
page at the page's path. -/
theorem page_renderer_idempotent_witness :
    write_problems sampleInputs [sampleProblem] (fun _ => none) (page_path 1) =
        some (page_content sampleInputs sampleProblem) ∧
    write_problems sampleInputs [sampleProblem] (fun _ => some "stale") (page_path 1) =
        some (page_content sampleInputs sampleProblem) :=
  (page_renderer_idempotent sampleInputs [sampleProblem]
      (fun _ => none) (fun _ => some "stale")).2
    (page_path 1) (page_content sampleInputs sampleProblem) rfl

/-- C9. When the marker scan of `write_readme` finds its first match at
index `i` and the rewrite succeeds, the rewritten document has the same
number of lines and agrees with the original everywhere except possibly
at `i`, `i + 2`, `i + 3` and `i + 4`; in particular line `i + 1` is
written back unchanged. -/
theorem readme_badge_frame (b1 b2 b3 b4 : String) (ls out : List String) (i : Nat)
    (hm : find_marker ls = some i)
    (hu : readme_update b1 b2 b3 b4 ls = some out) :
    out.length = ls.length ∧
    out.getD (i + 1) "" = ls.getD (i + 1) "" ∧
    ∀ j, j ≠ i → j ≠ i + 2 → j ≠ i + 3 → j ≠ i + 4 →
      out.getD j "" = ls.getD j "" := by
  have hmi : marker_index ls = some i := by simp [marker_index, hm]
  unfold readme_update at hu
  rw [hmi] at hu
  obtain ⟨l1, h1, hu⟩ := Option.bind_eq_some.mp hu
  obtain ⟨l2, h2, hu⟩ := Option.bind_eq_some.mp hu
  obtain ⟨l3, h3, h4⟩ := Option.bind_eq_some.mp hu
  have frame : ∀ j, j ≠ i → j ≠ i + 2 → j ≠ i + 3 → j ≠ i + 4 →
      out.getD j "" = ls.getD j "" := by
    intro j hj1 hj2 hj3 hj4
    rw [pySet_getD_ne l3 (i + 4) b4 out j h4 hj4,
        pySet_getD_ne l2 (i + 3) b3 l3 j h3 hj3,
        pySet_getD_ne l1 (i + 2) b2 l2 j h2 hj2,
        pySet_getD_ne ls i b1 l1 j h1 hj1]
  refine ⟨?_, frame (i + 1) (by omega) (by omega) (by omega) (by omega), frame⟩
  rw [pySet_length l3 (i + 4) b4 out h4, pySet_length l2 (i + 3) b3 l3 h3,
      pySet_length l1 (i + 2) b2 l2 h2, pySet_length ls i b1 l1 h1]

/-- C9 (witness). The frame theorem applied to a concrete five-line
document whose first line is the marker. -/
theorem readme_badge_frame_witness :
    (["S", "orig1", "E", "M", "H"] : List String).length =
        ([solvedMarker, "orig1", "orig2", "orig3", "orig4"] : List String).length ∧
    (["S", "orig1", "E", "M", "H"] : List String).getD (0 + 1) "" =
        ([solvedMarker, "orig1", "orig2", "orig3", "orig4"] : List String).getD (0 + 1) "" ∧
    ∀ j, j ≠ 0 → j ≠ 0 + 2 → j ≠ 0 + 3 → j ≠ 0 + 4 →
      (["S", "orig1", "E", "M", "H"] : List String).getD j "" =
        ([solvedMarker, "orig1", "orig2", "orig3", "orig4"] : List String).getD j "" :=
  readme_badge_frame "S" "E" "M" "H" [solvedMarker, "orig1", "orig2", "orig3", "orig4"]
    ["S", "orig1", "E", "M", "H"] 0 rfl rfl

/-- C10. In smoke-test mode the constructor truncates `problems` and
`records` but not the bulk response, so `write_readme`'s percentage keeps
the full catalog's `num_total` as denominator while the solved count
ranges over only the first two entries. -/
theorem readme_denominator_full_catalog (globFn : String → List String)
    (argv : List String) (st : APIState) (h : argv.length > 1) :
    (apply_argv argv st).num_total = st.num_total ∧
    solved_percentage globFn (apply_argv argv st) =
      pyRound2 (((num_solved globFn (st.problems.take 2) : ℚ) / (st.num_total : ℚ)) * 100) := by
  simp [apply_argv, h, solved_percentage]

/-- C10 (witness). The denominator theorem applied to a concrete
four-problem state with one solved problem among the first two. -/
theorem readme_denominator_full_catalog_witness :
    (apply_argv ["main.py", "smoke"] sampleState).num_total = sampleState.num_total ∧
    solved_percentage sampleGlob (apply_argv ["main.py", "smoke"] sampleState) =
      pyRound2 (((num_solved sampleGlob (sampleState.problems.take 2) : ℚ) /
        (sampleState.num_total : ℚ)) * 100) :=
  readme_denominator_full_catalog sampleGlob ["main.py", "smoke"] sampleState (by decide)

/-- C8. The tag-badge list holds exactly one badge per input tag found in
the color table, in input order, and every tag absent from the table is
silently dropped — no error, no default color, no entry. -/
theorem tag_strings_allowlist (colors : List (String × String)) (problem_tags : List String) :
    get_tag_strings colors problem_tags =
      (problem_tags.filter (fun t => (List.lookup t colors).isSome)).map
        (fun t => tag_badge t ((List.lookup t colors).getD "")) := by
  unfold get_tag_strings
  rw [get_tag_strings_aux]
  simp
